import Mathlib

/-
  Verification development for the eclairjs-node remote-DataFrame shim.

  Shallow embedding of:
    - src/lib/SparkContext.js   (SparkContext.prototype.parallelize / textFile)
    - src/unnamed/part_000      (DataFrame.prototype.* operation builders)

  JavaScript promises are modelled as settled outcomes (`Except JsError a`);
  a promise that can never settle is modelled as `Option (Except JsError a)`
  with `none` for "pending forever".  The remote kernel (jupyter gateway) is
  modelled as a pure function from the submitted code string to its outcome.

  The helper modules `utils.js` and `kernel.js` (Utils.processTemplate,
  Utils.generateAssignment, Utils.generateResultPromise, protocol.genVariable,
  protocol.verifyAssign) are not part of this source snapshot; they are
  modelled from the specification (spec.md sections 4.1, 4.2, 4.4, 4.5) and
  each such definition is marked `Modelled from the spec:` in its doc comment.
-/

/-- JavaScript error value: constructor name (e.g. "TypeError") and message. -/
structure JsError where
  name : String
  msg : String
deriving Repr, DecidableEq

/-- A settled JavaScript promise: either resolved with a value or rejected
with an error. -/
abbrev JsPromise (α : Type) := Except JsError α

/-- Values that can appear in the resolved-values array of the builders'
`Promise.all`: either a string (a resolved identifier or a quoted literal) or
JavaScript `undefined` (property access `arg.refIdP` on a plain string). -/
inductive JsVal where
  | undef
  | str (s : String)
deriving Repr, DecidableEq

/-- JavaScript truthiness of `values[2]` in the variadic builders: absent
(array too short) and `undefined` are falsy, a string is falsy iff empty. -/
def jsTruthy : Option JsVal → Bool
  | none => false
  | some JsVal.undef => false
  | some (JsVal.str s) => !s.isEmpty

/-- `Array.prototype.join(",")`: `undefined` elements render as the empty
string, strings render as themselves. -/
def jsJoin (l : List JsVal) : String :=
  String.intercalate "," (l.map fun v => match v with
    | JsVal.undef => ""
    | JsVal.str s => s)

/-- The three outcome shapes of one code submission to the execution gateway
(spec section 4.3): a produced raw value, printed text, or a failure message. -/
inductive Outcome where
  | value (raw : String)
  | printed (text : String)
  | failure (msg : String)
deriving Repr, DecidableEq

/-- A caller-side handle for a remote object.  Every wrapper constructed by
this code (DataFrame in part_000 lines 29-32, and the Column / RDD /
GroupedData wrappers it hands its kernel and refId promises to) stores
exactly the pair `(kernelP, refIdP)`. -/
structure Handle where
  kernelP : JsPromise Unit
  refIdP : JsPromise String
deriving Repr

/-- The DataFrame wrapper of part_000 is a Handle. -/
abbrev DataFrame := Handle

/-- Modelled from the spec: `protocol.genVariable` lives in `kernel.js`,
which is absent from this snapshot.  Spec section 4.2: `next(kind)` produces
`kind + counter` where the counter increments per call.  The process-wide
counter is passed and returned explicitly. -/
def genVariable (kind : String) (counter : Nat) : String × Nat :=
  (kind ++ toString counter, counter + 1)

/-- Scans the characters after an opening `\x7b\x7b` for the closing
`\x7d\x7d`; returns the placeholder name and the remaining characters. -/
def splitPlaceholder : List Char → Option (List Char × List Char)
  | [] => none
  | c :: rest =>
    if c = '\x7d' then
      match rest with
      | c2 :: rest2 =>
        if c2 = '\x7d' then some ([], rest2)
        else (splitPlaceholder rest).map (fun p => (c :: p.1, p.2))
      | [] => none
    else (splitPlaceholder rest).map (fun p => (c :: p.1, p.2))

/-- Looks up a template parameter by name. -/
def lookupParam (params : List (String × String)) (k : String) : Option String :=
  (params.find? (fun p => p.1 == k)).map (fun p => p.2)

/-- Fuel-indexed renderer core; each step consumes at least one input
character, so fuel equal to the input length suffices. -/
def renderAux (params : List (String × String)) : Nat → List Char → Except JsError (List Char)
  | 0, l => Except.ok l
  | _ + 1, [] => Except.ok []
  | fuel + 1, c1 :: rest =>
    if c1 = '\x7b' then
      match rest with
      | c2 :: rest2 =>
        if c2 = '\x7b' then
          match splitPlaceholder rest2 with
          | some (nameChars, rest3) =>
            match lookupParam params (String.mk nameChars) with
            | some v => (renderAux params fuel rest3).map (fun t => v.data ++ t)
            | none => Except.error ⟨"MissingParameterError", "missing parameter: " ++ String.mk nameChars⟩
          | none => (renderAux params fuel rest).map (fun t => c1 :: t)
        else (renderAux params fuel rest).map (fun t => c1 :: t)
      | [] => Except.ok [c1]
    else (renderAux params fuel rest).map (fun t => c1 :: t)

/-- Modelled from the spec: `Utils.processTemplate` lives in `utils.js`,
which is absent from this snapshot.  Spec section 4.1: replaces every
occurrence of a `\x7b\x7bname\x7d\x7d` placeholder with the string form of
`params[name]`, and fails with `MissingParameterError` when a placeholder has
no corresponding entry.  Pure function. -/
def processTemplate (template : String) (params : List (String × String)) : Except JsError String :=
  (renderAux params template.length template.data).map String.mk

/-- Modelled from the spec: `protocol.verifyAssign` lives in `kernel.js`,
which is absent from this snapshot.  Spec sections 4.4 and 8: an outcome with
no failure signal resolves the waiting handle with exactly the expected
identifier; a failure outcome rejects it with an error carrying the remote
failure message verbatim. -/
def verifyAssign (outcome : Outcome) (refId : String) : JsPromise String :=
  match outcome with
  | Outcome.failure m => Except.error ⟨"Error", m⟩
  | _ => Except.ok refId

/-- The result of running one operation builder: the code string submitted to
the gateway (or `none` when nothing was submitted) and the settlement of the
promise the builder hands its caller. -/
structure BuilderRun (α : Type) where
  submitted : Option String
  result : α
deriving Repr

/-- One argument of a variadic builder call (groupBy / select / cube): either
a Column reference handle or a plain string name. -/
inductive ArgV where
  | col (c : Handle)
  | strArg (s : String)
deriving Repr

/-- JavaScript string coercion `'' + arg` as used in `'"' + arg + '"'`
(part_000 lines 203, 416, 507): a string coerces to itself and a Column
object to the default `Object.prototype.toString` form.  (Column.js is
absent from this snapshot; the default coercion is modelled.) -/
def jsCoerce : ArgV → String
  | ArgV.col _ => "[object Object]"
  | ArgV.strArg s => s

/-- The `typeof args[0] === 'object'` test of the variadic builders
(part_000 lines 196, 409, 500): true exactly when the first argument exists
and is a Column object. -/
def isObjectFirst : List ArgV → Bool
  | ArgV.col _ :: _ => true
  | _ => false

/-- Column branch (part_000 lines 196-199): every argument's `refIdP`
property is pushed; on a plain string that property read yields `undefined`,
which `Promise.all` treats as an already-resolved value. -/
def argPromiseCol : ArgV → JsPromise JsVal
  | ArgV.col c => c.refIdP.map JsVal.str
  | ArgV.strArg _ => Except.ok JsVal.undef

/-- String branch (part_000 lines 200-205): every argument is coerced and
wrapped in double quotes, then autoresolved. -/
def argPromiseStr (a : ArgV) : JsPromise JsVal :=
  Except.ok (JsVal.str ("\"" ++ jsCoerce a ++ "\""))

/-- `Promise.all` over an array of settled promises: rejected with the first
rejection in array order, otherwise resolved with the list of values. -/
def exceptAll {α : Type} : List (JsPromise α) → JsPromise (List α)
  | [] => Except.ok []
  | p :: ps =>
    match p with
    | Except.error e => Except.error e
    | Except.ok v => (exceptAll ps).map (fun vs => v :: vs)

/-- The shared body of DataFrame.prototype.groupBy (part_000 lines 405-444),
cube (lines 192-231) and select (lines 496-535), which duplicate it verbatim
up to the template string: build the promise array
`[kernelP, refIdP] ++ args`, branch on the first argument's shape,
`Promise.all` the array, keep the values from position 2 on when `values[2]`
is truthy, render the template with the joined ids, submit, and route the
outcome through verifyAssign; any rejection reaches `.catch(reject)`. -/
def varArgsBody (df : Handle) (args : List ArgV) (refId : String)
    (templateStr : String) (gateway : String → Outcome) : BuilderRun (JsPromise String) :=
  let argPs := if isObjectFirst args then args.map argPromiseCol else args.map argPromiseStr
  match df.kernelP with
  | Except.error e => ⟨none, Except.error e⟩
  | Except.ok _ =>
    match df.refIdP with
    | Except.error e => ⟨none, Except.error e⟩
    | Except.ok dataFrameId =>
      match exceptAll argPs with
      | Except.error e => ⟨none, Except.error e⟩
      | Except.ok vals =>
        let colIds := if jsTruthy vals.head? then vals else []
        match processTemplate templateStr
            [("refId", refId), ("inRefId", dataFrameId), ("groupByArgs", jsJoin colIds)] with
        | Except.error e => ⟨none, Except.error e⟩
        | Except.ok code => ⟨some code, verifyAssign (gateway code) refId⟩

/-- What a variadic builder call returns to its caller: whether the JS
function returned `this` itself (select's zero-argument early return), the
wrapper handle returned, the code submitted, and the name counter after the
call. -/
structure VarArgsCall where
  returnsSelf : Bool
  handle : Handle
  submitted : Option String
  ctr : Nat
deriving Repr

/-- Generates the fresh output identifier, runs the shared body and wraps the
result promise in a new handle that shares the receiver's kernel promise. -/
def varArgsOp (df : Handle) (args : List ArgV) (kind templateStr : String)
    (ctr : Nat) (gateway : String → Outcome) : VarArgsCall :=
  let idc := genVariable kind ctr
  let run := varArgsBody df args idc.1 templateStr gateway
  ⟨false, ⟨df.kernelP, run.result⟩, run.submitted, idc.2⟩

/-- Template of DataFrame.prototype.groupBy (part_000 line 435). -/
def groupByTemplate : String := "var \x7b\x7brefId\x7d\x7d = \x7b\x7binRefId\x7d\x7d.groupBy(\x7b\x7bgroupByArgs\x7d\x7d);"

/-- Template of DataFrame.prototype.cube (part_000 line 222). -/
def cubeTemplate : String := "var \x7b\x7brefId\x7d\x7d = \x7b\x7binRefId\x7d\x7d.cube(\x7b\x7bgroupByArgs\x7d\x7d);"

/-- Template of DataFrame.prototype.select (part_000 line 526). -/
def selectTemplate : String := "var \x7b\x7brefId\x7d\x7d = \x7b\x7binRefId\x7d\x7d.select(\x7b\x7bgroupByArgs\x7d\x7d);"

/-- DataFrame.prototype.groupBy (part_000 lines 398-445). -/
def DataFrame.groupBy (df : Handle) (args : List ArgV) (ctr : Nat)
    (gateway : String → Outcome) : VarArgsCall :=
  varArgsOp df args "groupedData" groupByTemplate ctr gateway

/-- DataFrame.prototype.cube (part_000 lines 185-232). -/
def DataFrame.cube (df : Handle) (args : List ArgV) (ctr : Nat)
    (gateway : String → Outcome) : VarArgsCall :=
  varArgsOp df args "groupedData" cubeTemplate ctr gateway

/-- DataFrame.prototype.select (part_000 lines 486-536): with zero arguments
it returns `this` itself before generating any identifier (lines 489-491);
otherwise it follows the shared variadic-builder body. -/
def DataFrame.select (df : Handle) (args : List ArgV) (ctr : Nat)
    (gateway : String → Outcome) : VarArgsCall :=
  if args.length == 0 then ⟨true, df, none, ctr⟩
  else varArgsOp df args "dataFrame" selectTemplate ctr gateway

/-- Modelled from the spec: `Utils.generateAssignment` lives in `utils.js`,
which is absent from this snapshot.  Spec section 4.5 steps 2-7: generate a
fresh identifier of the target wrapper's kind, await kernelP, refIdP and
every promise-valued parameter (rejections short-circuit without
submission), render the template with `refId`, `inRefId` and the parameters,
submit, and route the outcome through verifyAssign. -/
def generateAssignment (df : Handle) (kind templateStr : String)
    (params : List (String × JsPromise String)) (ctr : Nat)
    (gateway : String → Outcome) : BuilderRun (JsPromise String) × Nat :=
  let idc := genVariable kind ctr
  match df.kernelP with
  | Except.error e => (⟨none, Except.error e⟩, idc.2)
  | Except.ok _ =>
    match df.refIdP with
    | Except.error e => (⟨none, Except.error e⟩, idc.2)
    | Except.ok inRefId =>
      match exceptAll (params.map (fun p => p.2)) with
      | Except.error e => (⟨none, Except.error e⟩, idc.2)
      | Except.ok vals =>
        match processTemplate templateStr
            (("refId", idc.1) :: ("inRefId", inRefId) :: (params.map (fun p => p.1)).zip vals) with
        | Except.error e => (⟨none, Except.error e⟩, idc.2)
        | Except.ok code => (⟨some code, verifyAssign (gateway code) idc.1⟩, idc.2)

/-- Template of DataFrame.prototype.dropDuplicates for a non-empty column
list (part_000 line 297, left branch). -/
def dropDupTemplateCols : String := "var \x7b\x7brefId\x7d\x7d = \x7b\x7binRefId\x7d\x7d.dropDuplicates([\x7b\x7bcolNames\x7d\x7d]);"

/-- Template of DataFrame.prototype.dropDuplicates for an empty column list
(part_000 line 297, right branch). -/
def dropDupTemplateEmpty : String := "var \x7b\x7brefId\x7d\x7d = \x7b\x7binRefId\x7d\x7d.dropDuplicates([]);"

/-- DataFrame.prototype.dropDuplicates (part_000 lines 288-300).  `colNames`
is the single JS parameter; `none` models calling with no argument
(`colNames === undefined`).  The body guards the forEach with
`if (colNames)` but then unconditionally evaluates `colNames.length`, so the
no-argument call throws a TypeError before any rendering or submission. -/
def DataFrame.dropDuplicates (df : Handle) (colNames : Option (List String))
    (ctr : Nat) (gateway : String → Outcome) :
    Except JsError (BuilderRun (JsPromise String) × Nat) :=
  match colNames with
  | none => Except.error ⟨"TypeError", "Cannot read properties of undefined (reading 'length')"⟩
  | some names =>
    let colIds := names.map (fun n => "\"" ++ n ++ "\"")
    let templateStr := if names.length > 0 then dropDupTemplateCols else dropDupTemplateEmpty
    Except.ok (generateAssignment df "dataFrame" templateStr
      [("colNames", Except.ok (String.intercalate "," colIds))] ctr gateway)

/-- Modelled from the spec: `Utils.generateResultPromise` lives in
`utils.js`, which is absent from this snapshot.  Spec sections 4.3 and 4.5
steps 3-6 and section 7: await kernelP and refIdP (rejections short-circuit
without submission), render the template with `inRefId` and the parameters,
submit, reject with the remote message on a Failure outcome
(RemoteExecutionFailure), and otherwise hand the outcome's raw payload to
the operation's resolver callback, which settles the returned promise. -/
def generateResultPromise {α : Type} (df : Handle) (templateStr : String)
    (params : List (String × String)) (resolver : String → JsPromise α)
    (gateway : String → Outcome) : BuilderRun (JsPromise α) :=
  match df.kernelP with
  | Except.error e => ⟨none, Except.error e⟩
  | Except.ok _ =>
    match df.refIdP with
    | Except.error e => ⟨none, Except.error e⟩
    | Except.ok inRefId =>
      match processTemplate templateStr (("inRefId", inRefId) :: params) with
      | Except.error e => ⟨none, Except.error e⟩
      | Except.ok code =>
        match gateway code with
        | Outcome.failure m => ⟨some code, Except.error ⟨"Error", m⟩⟩
        | Outcome.value raw => ⟨some code, resolver raw⟩
        | Outcome.printed text => ⟨some code, resolver text⟩

/-- A JSON value as produced by the host runtime's `JSON.parse`.  Numbers are
modelled as integers (no payload in the claims requires floats). -/
inductive JsonVal where
  | null
  | bool (b : Bool)
  | num (n : Int)
  | str (s : String)
  | arr (items : List JsonVal)
  | obj (fields : List (String × JsonVal))

/-- Skips leading JSON whitespace characters. -/
def skipWsL : List Char → List Char
  | [] => []
  | c :: rest =>
    if c = ' ' ∨ c = '\n' ∨ c = '\t' ∨ c = '\r' then skipWsL rest else c :: rest

/-- Parses the body of a double-quoted string after the opening quote,
decoding the common escapes; returns the string and the rest of the input. -/
def parseStringBody : List Char → Except String (String × List Char)
  | [] => Except.error "Unterminated string in JSON"
  | c :: rest =>
    if c = '"' then Except.ok ("", rest)
    else if c = '\\' then
      match rest with
      | [] => Except.error "Unterminated string in JSON"
      | e :: rest2 =>
        let dec := if e = 'n' then '\n' else if e = 't' then '\t' else if e = 'r' then '\r' else e
        (parseStringBody rest2).map (fun p => (String.mk (dec :: p.1.data), p.2))
    else (parseStringBody rest).map (fun p => (String.mk (c :: p.1.data), p.2))

/-- Matches an expected literal character sequence. -/
def expectChars : List Char → List Char → Option (List Char)
  | [], l => some l
  | _ :: _, [] => none
  | c :: cs, d :: ds => if c = d then expectChars cs ds else none

/-- Decimal value of a digit run. -/
def digitsToNat (ds : List Char) : Nat :=
  ds.foldl (fun a c => a * 10 + (c.toNat - 48)) 0

mutual

/-- Fuel-indexed model of the host runtime's `JSON.parse` (value position);
each recursive call consumes input, so fuel proportional to the input length
suffices.  Exact host error messages are not modelled, only that parsing
fails. -/
def parseJsonValue : Nat → List Char → Except String (JsonVal × List Char)
  | 0, _ => Except.error "JSON input too deeply nested"
  | fuel + 1, l =>
    match skipWsL l with
    | [] => Except.error "Unexpected end of JSON input"
    | c :: rest =>
      if c = 'n' then
        match expectChars ['u', 'l', 'l'] rest with
        | some rest2 => Except.ok (JsonVal.null, rest2)
        | none => Except.error "Unexpected token in JSON"
      else if c = 't' then
        match expectChars ['r', 'u', 'e'] rest with
        | some rest2 => Except.ok (JsonVal.bool true, rest2)
        | none => Except.error "Unexpected token in JSON"
      else if c = 'f' then
        match expectChars ['a', 'l', 's', 'e'] rest with
        | some rest2 => Except.ok (JsonVal.bool false, rest2)
        | none => Except.error "Unexpected token in JSON"
      else if c = '"' then
        (parseStringBody rest).map (fun p => (JsonVal.str p.1, p.2))
      else if c = '[' then
        match skipWsL rest with
        | ']' :: rest2 => Except.ok (JsonVal.arr [], rest2)
        | l2 => (parseJsonElems fuel l2).map (fun p => (JsonVal.arr p.1, p.2))
      else if c = '\x7b' then
        match skipWsL rest with
        | '\x7d' :: rest2 => Except.ok (JsonVal.obj [], rest2)
        | l2 => (parseJsonMembers fuel l2).map (fun p => (JsonVal.obj p.1, p.2))
      else if c = '-' then
        match rest.span (fun d => d.isDigit) with
        | ([], _) => Except.error "Unexpected token in JSON"
        | (ds, rest2) => Except.ok (JsonVal.num (-(digitsToNat ds : Int)), rest2)
      else if c.isDigit then
        match (c :: rest).span (fun d => d.isDigit) with
        | (ds, rest2) => Except.ok (JsonVal.num ((digitsToNat ds : Nat) : Int), rest2)
      else Except.error "Unexpected token in JSON"

/-- Elements of a non-empty JSON array after the opening bracket. -/
def parseJsonElems : Nat → List Char → Except String (List JsonVal × List Char)
  | 0, _ => Except.error "JSON input too deeply nested"
  | fuel + 1, l =>
    match parseJsonValue fuel l with
    | Except.error e => Except.error e
    | Except.ok (v, rest) =>
      match skipWsL rest with
      | ',' :: rest2 => (parseJsonElems fuel rest2).map (fun p => (v :: p.1, p.2))
      | ']' :: rest2 => Except.ok ([v], rest2)
      | _ => Except.error "Expected comma or closing bracket in JSON array"

/-- Members of a non-empty JSON object after the opening brace. -/
def parseJsonMembers : Nat → List Char → Except String (List (String × JsonVal) × List Char)
  | 0, _ => Except.error "JSON input too deeply nested"
  | fuel + 1, l =>
    match skipWsL l with
    | '"' :: rest =>
      match parseStringBody rest with
      | Except.error e => Except.error e
      | Except.ok (k, rest2) =>
        match skipWsL rest2 with
        | ':' :: rest3 =>
          match parseJsonValue fuel rest3 with
          | Except.error e => Except.error e
          | Except.ok (v, rest4) =>
            match skipWsL rest4 with
            | ',' :: rest5 => (parseJsonMembers fuel rest5).map (fun p => ((k, v) :: p.1, p.2))
            | '\x7d' :: rest5 => Except.ok ([(k, v)], rest5)
            | _ => Except.error "Expected comma or closing brace in JSON object"
        | _ => Except.error "Expected colon in JSON object"
    | _ => Except.error "Expected string key in JSON object"

end

/-- Model of `JSON.parse`: parses one JSON value and requires only
whitespace to follow. -/
def jsonParse (s : String) : Except String JsonVal :=
  match parseJsonValue (s.length * 2 + 4) s.data with
  | Except.error e => Except.error e
  | Except.ok (v, rest) =>
    match skipWsL rest with
    | [] => Except.ok v
    | _ => Except.error "Unexpected non-whitespace character after JSON"

/-- Model of the host runtime's `parseInt(s)` in base 10: skip leading
whitespace, optional sign, then the longest leading digit run; `none` models
`NaN` (no digits).  The hexadecimal `0x` prefix is not modelled; no claim
exercises it. -/
def jsParseInt (s : String) : Option Int :=
  let l := skipWsL s.data
  let signed : Int × List Char :=
    match l with
    | '-' :: r => (-1, r)
    | '+' :: r => (1, r)
    | _ => (1, l)
  match signed.2.span (fun c => c.isDigit) with
  | ([], _) => none
  | (ds, _) => some (signed.1 * ((digitsToNat ds : Nat) : Int))

/-- Reads a named property of a parsed JSON value; `none` models JavaScript
`undefined` (property absent or receiver not an object). -/
def jsonField (j : JsonVal) (k : String) : Option JsonVal :=
  match j with
  | JsonVal.obj fields => (fields.find? (fun f => f.1 == k)).map (fun f => f.2)
  | _ => none

/-- A decoded row object. -/
structure Row where
  values : Option JsonVal

/-- Modelled from the spec: `RowFactory` (`RowFactory.js`) is absent from
this snapshot; spec section 6 treats row decoding as an external collaborator
that wraps the serialized `values` payload into a typed row object. -/
def RowFactory.create (v : Option JsonVal) : Row := ⟨v⟩

/-- The error built by the catch blocks of part_000 lines 133-135, 152-155,
310-313 and 558-561: `new Error("Parse Error: " + e.message)`. -/
def parseErrorOf (m : String) : JsError := ⟨"Error", "Parse Error: " ++ m⟩

/-- The `_resolve` callback of DataFrame.prototype.collect (part_000 lines
117-137): parse the payload, wrap each element's `values` field through
RowFactory when the result is an array (a non-array silently yields the
empty row list), and reject with a parse error when parsing throws. -/
def collectResolve (result : String) : JsPromise (List Row) :=
  match jsonParse result with
  | Except.error m => Except.error (parseErrorOf m)
  | Except.ok res =>
    match res with
    | JsonVal.arr items =>
      Except.ok (items.map (fun rowData => RowFactory.create (jsonField rowData "values")))
    | _ => Except.ok []

/-- The `_resolve` callback of DataFrame.prototype.columns (part_000 lines
149-157): parse the payload, rejecting with a parse error on failure. -/
def columnsResolve (result : String) : JsPromise JsonVal :=
  match jsonParse result with
  | Except.error m => Except.error (parseErrorOf m)
  | Except.ok v => Except.ok v

/-- The `_resolve` callback of DataFrame.prototype.dtypes (part_000 lines
307-315), textually identical to the columns callback. -/
def dtypesResolve (result : String) : JsPromise JsonVal :=
  match jsonParse result with
  | Except.error m => Except.error (parseErrorOf m)
  | Except.ok v => Except.ok v

/-- The `_resolve` callback of DataFrame.prototype.take (part_000 lines
555-563), textually identical to the columns callback. -/
def takeResolve (result : String) : JsPromise JsonVal :=
  match jsonParse result with
  | Except.error m => Except.error (parseErrorOf m)
  | Except.ok v => Except.ok v

/-- The `_resolve` callback of DataFrame.prototype.count (part_000 lines
169-171): `resolve(parseInt(result))` with no try/catch — it always
resolves; `none` is `NaN`. -/
def countResolve (result : String) : JsPromise (Option Int) :=
  Except.ok (jsParseInt result)

/-- Template of DataFrame.prototype.collect (part_000 line 139). -/
def collectTemplate : String := "JSON.stringify(\x7b\x7binRefId\x7d\x7d.collect());"

/-- Template of DataFrame.prototype.columns (part_000 line 159). -/
def columnsTemplate : String := "JSON.stringify(\x7b\x7binRefId\x7d\x7d.columns());"

/-- Template of DataFrame.prototype.dtypes (part_000 line 317). -/
def dtypesTemplate : String := "JSON.stringify(\x7b\x7binRefId\x7d\x7d.dtypes());"

/-- Template of DataFrame.prototype.take (part_000 line 565). -/
def takeTemplate : String := "JSON.stringify(\x7b\x7binRefId\x7d\x7d.take(\x7b\x7bnum\x7d\x7d));"

/-- Template of DataFrame.prototype.count (part_000 line 173). -/
def countTemplate : String := "\x7b\x7binRefId\x7d\x7d.count();"

/-- DataFrame.prototype.collect (part_000 lines 114-142). -/
def DataFrame.collect (df : Handle) (gateway : String → Outcome) : BuilderRun (JsPromise (List Row)) :=
  generateResultPromise df collectTemplate [] collectResolve gateway

/-- DataFrame.prototype.columns (part_000 lines 148-162). -/
def DataFrame.columns (df : Handle) (gateway : String → Outcome) : BuilderRun (JsPromise JsonVal) :=
  generateResultPromise df columnsTemplate [] columnsResolve gateway

/-- DataFrame.prototype.dtypes (part_000 lines 306-320). -/
def DataFrame.dtypes (df : Handle) (gateway : String → Outcome) : BuilderRun (JsPromise JsonVal) :=
  generateResultPromise df dtypesTemplate [] dtypesResolve gateway

/-- DataFrame.prototype.take (part_000 lines 554-568); the numeric argument
is substituted into the template in its decimal string form. -/
def DataFrame.take (df : Handle) (num : Int) (gateway : String → Outcome) : BuilderRun (JsPromise JsonVal) :=
  generateResultPromise df takeTemplate [("num", toString num)] takeResolve gateway

/-- DataFrame.prototype.count (part_000 lines 168-176). -/
def DataFrame.count (df : Handle) (gateway : String → Outcome) : BuilderRun (JsPromise (Option Int)) :=
  generateResultPromise df countTemplate [] countResolve gateway

/-- The JavaScript SparkContext wrapper (src/lib/SparkContext.js lines
65-97): it stores only the kernel promise. -/
structure SparkContext where
  kernel : JsPromise Unit

/-- Identifiers bound at module scope in src/lib/SparkContext.js: the
requires of lines 17-21, the helper of line 23 and the constructor of line
65.  No binding named `kernel` exists at that scope. -/
def sparkContextModuleScope : List String :=
  ["gw", "RDD", "protocol", "Utils", "request", "_getURL", "SparkContext"]

/-- JavaScript name resolution against the SparkContext module scope:
reading an identifier that is bound nowhere throws a ReferenceError. -/
def resolveModuleVar (n : String) : Except JsError Unit :=
  if n ∈ sparkContextModuleScope then Except.ok ()
  else Except.error ⟨"ReferenceError", n ++ " is not defined"⟩

/-- Template of SparkContext.prototype.textFile (SparkContext.js line 131). -/
def textFileTemplate : String := "var \x7b\x7brefId\x7d\x7d = jsc.textFile(\"\x7b\x7bpath\x7d\x7d\");"

/-- SparkContext.prototype.parallelize (SparkContext.js lines 104-118).  Its
first statement, `var refId = kernel.genVariable();` (line 105), reads the
identifier `kernel`, which is bound nowhere in the module (the kernel module
is imported as `protocol`, line 19), so every call throws a ReferenceError
before generating a name, building code, or constructing the RDD.  The
remainder of the body is unreachable and is represented by the never-taken
`Except.ok` branch. -/
def SparkContext.parallelize (sc : SparkContext) (arr : List Int) (ctr : Nat)
    (gateway : String → Outcome) :
    Except JsError (BuilderRun (Option (JsPromise String)) × Nat) :=
  match resolveModuleVar "kernel" with
  | Except.error e => Except.error e
  | Except.ok _ => Except.ok (⟨none, none⟩, ctr)

/-- SparkContext.prototype.textFile (SparkContext.js lines 126-140):
generates the fresh identifier via `protocol.genVariable('rdd')` before the
promise body runs, renders and submits the code once the kernel promise
resolves, and routes the outcome through verifyAssign.  The promise body
attaches no rejection handler to `self.kernel`, so when the kernel promise
is rejected the returned RDD's refId promise never settles (`none`). -/
def SparkContext.textFile (sc : SparkContext) (path : String) (ctr : Nat)
    (gateway : String → Outcome) : BuilderRun (Option (JsPromise String)) × Nat :=
  let idc := genVariable "rdd" ctr
  match sc.kernel with
  | Except.error _ => (⟨none, none⟩, idc.2)
  | Except.ok _ =>
    match processTemplate textFileTemplate [("refId", idc.1), ("path", path)] with
    | Except.error _ => (⟨none, none⟩, idc.2)
    | Except.ok code => (⟨some code, some (verifyAssign (gateway code) idc.1)⟩, idc.2)

/-- The state of one JavaScript promise cell, for the handle-immutability
claims: pending, resolved with a value, or rejected with an error. -/
inductive PromiseState (α : Type) where
  | pending
  | resolved (v : α)
  | rejected (e : JsError)
deriving Repr, DecidableEq

/-- The resolve half of the promise capability (ES2015 25.4): settling an
already-settled promise is a no-op. -/
def resolveP {α : Type} (p : PromiseState α) (v : α) : PromiseState α :=
  match p with
  | PromiseState.pending => PromiseState.resolved v
  | s => s

/-- The reject half of the promise capability (ES2015 25.4): settling an
already-settled promise is a no-op. -/
def rejectP {α : Type} (p : PromiseState α) (e : JsError) : PromiseState α :=
  match p with
  | PromiseState.pending => PromiseState.rejected e
  | s => s

/-- What one dependent observes when awaiting a handle's identifier promise,
together with the code that act submits. -/
structure AwaitObservation (α : Type) where
  value : Option (Except JsError α)
  submitted : List String
deriving Repr

/-- Awaiting a handle's identifier: in part_000 every dependent only reads
the `refIdP` field stored by the constructor (lines 29-32) and registers a
continuation on it (e.g. lines 406, 497); no builder ever writes that field
after construction, and registering a continuation submits no code. -/
def awaitHandle {α : Type} (p : PromiseState α) : AwaitObservation α :=
  ⟨match p with
    | PromiseState.pending => none
    | PromiseState.resolved v => some (Except.ok v)
    | PromiseState.rejected e => some (Except.error e), []⟩

/-- A DataFrame handle whose kernel and identifier promises have resolved. -/
def dfResolved : Handle := ⟨Except.ok (), Except.ok "df1"⟩

/-- A gateway whose every submission succeeds with an empty produced value. -/
def gatewayOK : String → Outcome := fun _ => Outcome.value ""

/-- A sample upstream failure used in concrete instances. -/
def errUpstream : JsError := ⟨"Error", "upstream failed"⟩

/-- A column handle whose identifier promise has been rejected. -/
def colRejected : Handle := ⟨Except.ok (), Except.error errUpstream⟩

/-- A column handle whose identifier promise resolved to `col1`. -/
def colResolved : Handle := ⟨Except.ok (), Except.ok "col1"⟩

/-- A DataFrame handle whose identifier promise has been rejected. -/
def dfRejected : Handle := ⟨Except.ok (), Except.error errUpstream⟩

/-- The failure of one of an operation's input handles: the receiver's
identifier promise, or the identifier promise of a Column passed as an
argument. -/
def inputFailure (df : Handle) (args : List ArgV) (e : JsError) : Prop :=
  df.refIdP = Except.error e ∨ ∃ c, ArgV.col c ∈ args ∧ c.refIdP = Except.error e

/-- Replaces an argument by its JavaScript string coercion. -/
def stringifyArg (a : ArgV) : ArgV := ArgV.strArg (jsCoerce a)

/-- String containment as concatenation. -/
def strContains (h n : String) : Prop := ∃ p q, h = p ++ n ++ q

/-- If some promise in the array is rejected, `Promise.all` rejects with a
failure that is itself one of the array's rejections. -/
theorem exceptAll_mem_error {α : Type} (ps : List (JsPromise α))
    (h : ∃ p ∈ ps, ∃ e, p = Except.error e) :
    ∃ e, exceptAll ps = Except.error e ∧ Except.error e ∈ ps := by
  induction ps with
  | nil =>
    rcases h with ⟨p, hp, _⟩
    cases hp
  | cons p ps ih =>
    cases p with
    | error e =>
      exact ⟨e, rfl, List.mem_cons_self _ _⟩
    | ok v =>
      rcases h with ⟨q, hq, e, rfl⟩
      rcases List.mem_cons.mp hq with h1 | h2
      · cases h1
      · rcases ih ⟨_, h2, e, rfl⟩ with ⟨e', he', hmem⟩
        refine ⟨e', ?_, List.mem_cons_of_mem _ hmem⟩
        simp [exceptAll, he', Except.map]

/-- A rejection among the column-branch argument promises comes from a
Column argument whose identifier promise is rejected. -/
theorem argPromiseCol_error_inv (args : List ArgV) (e : JsError)
    (h : Except.error e ∈ args.map argPromiseCol) :
    ∃ c, ArgV.col c ∈ args ∧ c.refIdP = Except.error e := by
  rcases List.mem_map.mp h with ⟨a, ha, hae⟩
  cases a with
  | col c =>
    refine ⟨c, ha, ?_⟩
    cases hc : c.refIdP with
    | error e' =>
      rw [argPromiseCol, hc] at hae
      cases hae
      rfl
    | ok v =>
      rw [argPromiseCol, hc] at hae
      cases hae
  | strArg s =>
    cases hae

/-- Short-circuit of the shared variadic body: with the session promise
resolved, when the receiver's identifier promise is rejected, or the column
branch is taken and some Column argument's identifier promise is rejected,
no code is submitted and the body's result is the rejection of one of those
inputs. -/
theorem varArgsBody_short_circuit (df : Handle) (args : List ArgV)
    (refId templateStr : String) (gw : String → Outcome)
    (hk : df.kernelP = Except.ok ())
    (hin : (∃ e, df.refIdP = Except.error e) ∨
      (isObjectFirst args = true ∧ ∃ c, ArgV.col c ∈ args ∧ ∃ e, c.refIdP = Except.error e)) :
    ∃ e, varArgsBody df args refId templateStr gw = ⟨none, Except.error e⟩ ∧
      inputFailure df args e := by
  cases hr : df.refIdP with
  | error e =>
    refine ⟨e, ?_, Or.inl hr⟩
    simp [varArgsBody, hk, hr]
  | ok did =>
    rcases hin with ⟨e, he⟩ | ⟨hobj, c, hc, e, hce⟩
    · rw [hr] at he; cases he
    · have hmem : Except.error e ∈ args.map argPromiseCol := by
        have : argPromiseCol (ArgV.col c) = Except.error e := by
          rw [argPromiseCol, hce]; rfl
        exact this ▸ List.mem_map_of_mem argPromiseCol hc
      rcases exceptAll_mem_error (args.map argPromiseCol) ⟨_, hmem, e, rfl⟩ with ⟨e', hall, hmem'⟩
      rcases argPromiseCol_error_inv args e' hmem' with ⟨c', hc', hce'⟩
      refine ⟨e', ?_, Or.inr ⟨c', hc', hce'⟩⟩
      simp [varArgsBody, hk, hr, hobj, hall]

/-- The string branch applies the quoted string coercion to every argument,
so a call behaves exactly as the same call with every argument replaced by
its string coercion. -/
theorem map_argPromiseStr_stringify (args : List ArgV) :
    args.map (argPromiseStr ∘ stringifyArg) = args.map argPromiseStr := by
  induction args with
  | nil => rfl
  | cons a l ih =>
    simp only [List.map_cons, ih, List.cons.injEq, and_true]
    rfl

/-- Coercing every argument to a string puts the call in the string branch. -/
theorem isObjectFirst_map_stringify (args : List ArgV) :
    isObjectFirst (args.map stringifyArg) = false := by
  cases args <;> rfl

/-- String-branch substitution invariance of the shared variadic body. -/
theorem varArgsBody_string_branch (df : Handle) (args : List ArgV)
    (refId templateStr : String) (gw : String → Outcome)
    (h : isObjectFirst args = false) :
    varArgsBody df args refId templateStr gw =
      varArgsBody df (args.map stringifyArg) refId templateStr gw := by
  simp [varArgsBody, h, isObjectFirst_map_stringify, List.map_map,
    map_argPromiseStr_stringify]

/-- Short-circuit of a whole variadic builder call: submitted code and the
returned handle's identifier promise. -/
theorem varArgsOp_short_circuit (df : Handle) (args : List ArgV)
    (kind templateStr : String) (ctr : Nat) (gw : String → Outcome)
    (hk : df.kernelP = Except.ok ())
    (hin : (∃ e, df.refIdP = Except.error e) ∨
      (isObjectFirst args = true ∧ ∃ c, ArgV.col c ∈ args ∧ ∃ e, c.refIdP = Except.error e)) :
    (varArgsOp df args kind templateStr ctr gw).submitted = none ∧
      ∃ e, (varArgsOp df args kind templateStr ctr gw).handle.refIdP = Except.error e ∧
        inputFailure df args e := by
  obtain ⟨e, he, hf⟩ := varArgsBody_short_circuit df args (genVariable kind ctr).1
    templateStr gw hk hin
  refine ⟨?_, e, ?_, hf⟩ <;> simp [varArgsOp, he]

/-- C1 (amended): for the in-source variadic builders groupBy, cube and
select, when the session promise has resolved and either the receiver's
identifier promise is rejected, or the call is in the column branch (first
argument a Column object) and some Column argument's identifier promise is
rejected, then no code is submitted for the operation and the returned
handle's identifier promise is rejected with the failure of one of those
inputs. -/
theorem claim1_short_circuit (df : Handle) (args : List ArgV) (ctr : Nat)
    (gw : String → Outcome)
    (hk : df.kernelP = Except.ok ())
    (hin : (∃ e, df.refIdP = Except.error e) ∨
      (isObjectFirst args = true ∧ ∃ c, ArgV.col c ∈ args ∧ ∃ e, c.refIdP = Except.error e)) :
    ((DataFrame.groupBy df args ctr gw).submitted = none ∧
      ∃ e, (DataFrame.groupBy df args ctr gw).handle.refIdP = Except.error e ∧
        inputFailure df args e) ∧
    ((DataFrame.cube df args ctr gw).submitted = none ∧
      ∃ e, (DataFrame.cube df args ctr gw).handle.refIdP = Except.error e ∧
        inputFailure df args e) ∧
    ((DataFrame.select df args ctr gw).submitted = none ∧
      ∃ e, (DataFrame.select df args ctr gw).handle.refIdP = Except.error e ∧
        inputFailure df args e) := by
  refine ⟨varArgsOp_short_circuit df args _ _ ctr gw hk hin,
    varArgsOp_short_circuit df args _ _ ctr gw hk hin, ?_⟩
  cases args with
  | nil =>
    rcases hin with ⟨e, he⟩ | ⟨hobj, _⟩
    · exact ⟨rfl, e, he, Or.inl he⟩
    · cases hobj
  | cons a l =>
    have hsel : DataFrame.select df (a :: l) ctr gw =
        varArgsOp df (a :: l) "dataFrame" selectTemplate ctr gw := rfl
    rw [hsel]
    exact varArgsOp_short_circuit df (a :: l) _ _ ctr gw hk hin

/-- C1 witness: a receiver with a rejected identifier promise short-circuits
all three builders at a concrete input. -/
theorem claim1_short_circuit_wit :
    dfRejected.kernelP = Except.ok () ∧
    (∃ e, dfRejected.refIdP = Except.error e) ∧
    (((DataFrame.groupBy dfRejected [] 1 gatewayOK).submitted = none ∧
      ∃ e, (DataFrame.groupBy dfRejected [] 1 gatewayOK).handle.refIdP = Except.error e ∧
        inputFailure dfRejected [] e) ∧
    ((DataFrame.cube dfRejected [] 1 gatewayOK).submitted = none ∧
      ∃ e, (DataFrame.cube dfRejected [] 1 gatewayOK).handle.refIdP = Except.error e ∧
        inputFailure dfRejected [] e) ∧
    ((DataFrame.select dfRejected [] 1 gatewayOK).submitted = none ∧
      ∃ e, (DataFrame.select dfRejected [] 1 gatewayOK).handle.refIdP = Except.error e ∧
        inputFailure dfRejected [] e)) :=
  ⟨rfl, ⟨errUpstream, rfl⟩,
    claim1_short_circuit dfRejected [] 1 gatewayOK rfl (Or.inl ⟨errUpstream, rfl⟩)⟩

/-- C1 counterexample: a cube call whose first argument is a plain string
never awaits the Column handle passed as its second argument, so although
that input handle's identifier promise is rejected, code is submitted for
the operation and its result resolves. -/
theorem claim1_counterexample :
    colRejected.refIdP = Except.error errUpstream ∧
    (DataFrame.cube dfResolved [ArgV.strArg "age", ArgV.col colRejected] 1 gatewayOK).submitted =
      some "var groupedData1 = df1.cube(\"age\",\"[object Object]\");" ∧
    (DataFrame.cube dfResolved [ArgV.strArg "age", ArgV.col colRejected] 1 gatewayOK).handle.refIdP =
      Except.ok "groupedData1" :=
  ⟨rfl, rfl, rfl⟩

/-- C2 (amended): the variadic builders inspect only the first argument's
shape.  When the first argument is not a Column object, every argument —
including any Column handles mixed into the call — is coerced to a quoted
string, so the call behaves exactly as if each argument had been passed as
its string coercion; no rejection (and in particular no
MalformedArgumentsError) occurs on a heterogeneous call. -/
theorem claim2_first_arg_dispatch (df : Handle) (args : List ArgV) (ctr : Nat)
    (gw : String → Outcome) (h : isObjectFirst args = false) :
    DataFrame.groupBy df args ctr gw = DataFrame.groupBy df (args.map stringifyArg) ctr gw ∧
    DataFrame.cube df args ctr gw = DataFrame.cube df (args.map stringifyArg) ctr gw ∧
    DataFrame.select df args ctr gw = DataFrame.select df (args.map stringifyArg) ctr gw := by
  have hg := varArgsBody_string_branch df args (genVariable "groupedData" ctr).1
    groupByTemplate gw h
  have hc := varArgsBody_string_branch df args (genVariable "groupedData" ctr).1
    cubeTemplate gw h
  refine ⟨by simp [DataFrame.groupBy, varArgsOp, hg], by simp [DataFrame.cube, varArgsOp, hc], ?_⟩
  cases args with
  | nil => rfl
  | cons a l =>
    have hs := varArgsBody_string_branch df (a :: l) (genVariable "dataFrame" ctr).1
      selectTemplate gw h
    have h1 : DataFrame.select df (a :: l) ctr gw =
        varArgsOp df (a :: l) "dataFrame" selectTemplate ctr gw := rfl
    have h2 : DataFrame.select df ((a :: l).map stringifyArg) ctr gw =
        varArgsOp df ((a :: l).map stringifyArg) "dataFrame" selectTemplate ctr gw := rfl
    rw [h1, h2]
    simp [varArgsOp, hs]

/-- C2 witness: the dispatch theorem applied to a concrete heterogeneous
call whose first argument is a plain string. -/
theorem claim2_first_arg_dispatch_wit :
    isObjectFirst [ArgV.strArg "age", ArgV.col colResolved] = false ∧
    (DataFrame.groupBy dfResolved [ArgV.strArg "age", ArgV.col colResolved] 1 gatewayOK =
      DataFrame.groupBy dfResolved ([ArgV.strArg "age", ArgV.col colResolved].map stringifyArg) 1 gatewayOK ∧
    DataFrame.cube dfResolved [ArgV.strArg "age", ArgV.col colResolved] 1 gatewayOK =
      DataFrame.cube dfResolved ([ArgV.strArg "age", ArgV.col colResolved].map stringifyArg) 1 gatewayOK ∧
    DataFrame.select dfResolved [ArgV.strArg "age", ArgV.col colResolved] 1 gatewayOK =
      DataFrame.select dfResolved ([ArgV.strArg "age", ArgV.col colResolved].map stringifyArg) 1 gatewayOK) :=
  ⟨rfl, claim2_first_arg_dispatch dfResolved [ArgV.strArg "age", ArgV.col colResolved] 1 gatewayOK rfl⟩

/-- C2 counterexample: a groupBy call mixing a plain string and a Column
handle is not rejected with a MalformedArgumentsError before submission;
code is submitted (with the Column coerced to a quoted string) and the
operation's result resolves. -/
theorem claim2_counterexample :
    (DataFrame.groupBy dfResolved [ArgV.strArg "age", ArgV.col colResolved] 1 gatewayOK).submitted =
      some "var groupedData1 = df1.groupBy(\"age\",\"[object Object]\");" ∧
    (DataFrame.groupBy dfResolved [ArgV.strArg "age", ArgV.col colResolved] 1 gatewayOK).handle.refIdP =
      Except.ok "groupedData1" :=
  ⟨rfl, rfl⟩

/-- C3 (code bug): an invocation of dropDuplicates with an explicit empty
array does render the explicit empty-argument-list form
`dropDuplicates([]);`, but the zero-argument invocation — deduplication with
no columns — throws a TypeError (part_000 line 297 reads `colNames.length`
on `undefined`) instead of rendering that form. -/
theorem claim3_dropDuplicates_eval :
    ∀ (gw : String → Outcome),
    DataFrame.dropDuplicates dfResolved none 1 gw =
      Except.error ⟨"TypeError", "Cannot read properties of undefined (reading 'length')"⟩ ∧
    DataFrame.dropDuplicates dfResolved (some []) 1 gw =
      Except.ok (⟨some "var dataFrame1 = df1.dropDuplicates([]);",
        verifyAssign (gw "var dataFrame1 = df1.dropDuplicates([]);") "dataFrame1"⟩, 2) :=
  fun _ => ⟨rfl, rfl⟩

/-- C4 (code bug): parallelize does not produce its identifier through the
name generator — its first statement reads the undeclared identifier
`kernel` and every call throws a ReferenceError — while textFile does
generate `rdd`-kind identifiers via protocol.genVariable before submitting
and returns a handle whose promise carries exactly that identifier when the
outcome has no failure signal. -/
theorem claim4_parallelize_textFile :
    ∀ (arr : List Int) (ctr : Nat) (gw : String → Outcome),
    SparkContext.parallelize ⟨Except.ok ()⟩ arr ctr gw =
      Except.error ⟨"ReferenceError", "kernel is not defined"⟩ ∧
    SparkContext.textFile ⟨Except.ok ()⟩ "data.txt" 1 gw =
      (⟨some "var rdd1 = jsc.textFile(\"data.txt\");",
        some (verifyAssign (gw "var rdd1 = jsc.textFile(\"data.txt\");") "rdd1")⟩, 2) ∧
    verifyAssign (Outcome.value "") "rdd1" = Except.ok "rdd1" :=
  fun _ _ _ => ⟨rfl, rfl, rfl⟩

/-- C5 (amended): for the terminal operations collect, columns, dtypes and
take, a payload that fails JSON decoding rejects the operation's promise
with a parse error (message prefixed `Parse Error: `), distinct from the
remote-failure rejection which carries the remote message; count, by
contrast, performs no decoding check — its resolver applies parseInt and
always resolves, yielding NaN on a non-numeric payload. -/
theorem claim5_parse_rejection :
    ∀ (s m : String) (num : Int), jsonParse s = Except.error m →
    collectResolve s = Except.error (parseErrorOf m) ∧
    columnsResolve s = Except.error (parseErrorOf m) ∧
    dtypesResolve s = Except.error (parseErrorOf m) ∧
    takeResolve s = Except.error (parseErrorOf m) ∧
    (DataFrame.take dfResolved num (fun _ => Outcome.value s)).result =
      Except.error (parseErrorOf m) ∧
    (∀ fm, (DataFrame.take dfResolved num (fun _ => Outcome.failure fm)).result =
      Except.error ⟨"Error", fm⟩) ∧
    (∀ r, ∃ v, countResolve r = Except.ok v) := by
  intro s m num h
  have htake : (DataFrame.take dfResolved num (fun _ => Outcome.value s)).result =
      takeResolve s := rfl
  refine ⟨by simp [collectResolve, h], by simp [columnsResolve, h],
    by simp [dtypesResolve, h], by simp [takeResolve, h], ?_,
    fun fm => rfl, fun r => ⟨jsParseInt r, rfl⟩⟩
  rw [htake]
  simp [takeResolve, h]

/-- C5 witness: the parse-rejection theorem applied to the concrete
undecodable payload `nope`. -/
theorem claim5_parse_rejection_wit :
    jsonParse "nope" = Except.error "Unexpected token in JSON" ∧
    (collectResolve "nope" = Except.error (parseErrorOf "Unexpected token in JSON") ∧
    columnsResolve "nope" = Except.error (parseErrorOf "Unexpected token in JSON") ∧
    dtypesResolve "nope" = Except.error (parseErrorOf "Unexpected token in JSON") ∧
    takeResolve "nope" = Except.error (parseErrorOf "Unexpected token in JSON") ∧
    (DataFrame.take dfResolved 3 (fun _ => Outcome.value "nope")).result =
      Except.error (parseErrorOf "Unexpected token in JSON") ∧
    (∀ fm, (DataFrame.take dfResolved 3 (fun _ => Outcome.failure fm)).result =
      Except.error ⟨"Error", fm⟩) ∧
    (∀ r, ∃ v, countResolve r = Except.ok v)) :=
  ⟨rfl, claim5_parse_rejection "nope" "Unexpected token in JSON" 3 rfl⟩

/-- C5 counterexample: on the non-numeric payload `abc`, count's promise
does not reject with a parse error — it resolves, with NaN (modelled as
`none`). -/
theorem claim5_counterexample :
    DataFrame.count dfResolved (fun _ => Outcome.value "abc") =
      ⟨some "df1.count();", Except.ok none⟩ :=
  rfl

/-- C6 (confirmed, spec-modelled verifier): for a submission expecting to
bind an identifier, a gateway outcome with no failure signal — a produced
value or printed text — resolves the waiting handle with exactly the
expected identifier. -/
theorem claim6_assign_success :
    ∀ (raw text refId : String),
    verifyAssign (Outcome.value raw) refId = Except.ok refId ∧
    verifyAssign (Outcome.printed text) refId = Except.ok refId :=
  fun _ _ _ => ⟨rfl, rfl⟩

/-- C7 (confirmed, spec-modelled verifier): a gateway outcome signalling
failure with message M rejects the waiting handle with an error whose
message contains M. -/
theorem claim7_assign_failure :
    ∀ (m refId : String),
    ∃ err, verifyAssign (Outcome.failure m) refId = Except.error err ∧
      strContains err.msg m :=
  fun m _ => ⟨⟨"Error", m⟩, rfl, "", "", by simp⟩

/-- C8 (confirmed, spec-modelled renderer): the renderer replaces every
occurrence of each placeholder with the parameter's string form, fails with
MissingParameterError on a placeholder with no entry, and the count example
renders exactly as specified. -/
theorem claim8_render :
    processTemplate "var \x7b\x7brefId\x7d\x7d = \x7b\x7binRefId\x7d\x7d.count();"
      [("refId", "df2"), ("inRefId", "df1")] = Except.ok "var df2 = df1.count();" ∧
    processTemplate "\x7b\x7bx\x7d\x7d-\x7b\x7bx\x7d\x7d" [("x", "a")] = Except.ok "a-a" ∧
    (∃ msg, processTemplate "\x7b\x7bmissing\x7d\x7d" [] =
      Except.error ⟨"MissingParameterError", msg⟩) :=
  ⟨rfl, rfl, "missing parameter: missing", rfl⟩

/-- C9 (confirmed): once a handle's identifier promise is resolved, every
await observes the same identifier and submits no code, and neither the
resolve nor the reject capability can change the settled state (JS promises
settle once; no builder writes `refIdP` after the constructor). -/
theorem claim9_idempotent_resolution (p : PromiseState String) (id : String)
    (h : p = PromiseState.resolved id) :
    (awaitHandle p).value = some (Except.ok id) ∧
    (awaitHandle p).submitted = [] ∧
    (∀ v, resolveP p v = PromiseState.resolved id) ∧
    (∀ e, rejectP p e = PromiseState.resolved id) := by
  subst h
  exact ⟨rfl, rfl, fun _ => rfl, fun _ => rfl⟩

/-- C9 witness: the idempotent-resolution theorem at a concrete resolved
promise. -/
theorem claim9_idempotent_resolution_wit :
    (PromiseState.resolved "df1" : PromiseState String) = PromiseState.resolved "df1" ∧
    ((awaitHandle (PromiseState.resolved "df1" : PromiseState String)).value =
      some (Except.ok "df1") ∧
    (awaitHandle (PromiseState.resolved "df1" : PromiseState String)).submitted = [] ∧
    (∀ v, resolveP (PromiseState.resolved "df1" : PromiseState String) v =
      PromiseState.resolved "df1") ∧
    (∀ e, rejectP (PromiseState.resolved "df1" : PromiseState String) e =
      PromiseState.resolved "df1")) :=
  ⟨rfl, claim9_idempotent_resolution (PromiseState.resolved "df1") "df1" rfl⟩

/-- C10 (confirmed): select with zero arguments returns `this` itself — not
a fresh handle — submits no code, and leaves the name counter untouched (no
identifier is generated). -/
theorem claim10_select_zero_args :
    ∀ (df : Handle) (ctr : Nat) (gw : String → Outcome),
    DataFrame.select df [] ctr gw = ⟨true, df, none, ctr⟩ :=
  fun _ _ _ => rfl
